import Mathlib

set_option autoImplicit false

/-!
Shallow embedding of the millennium-go client library (`millennium.go`,
the current `retryablehttp`-based revision of the file).

Modelling conventions:
- JSON documents are modelled by the inductive `Json`; a response body is
  `Option Json`, where `none` stands for bytes that are not a valid JSON
  document (an empty body included).  JSON numbers are modelled as integers,
  which covers every numeric field of the wire envelopes (`odata.count`,
  `error.code`).
- `encoding/json.Unmarshal` into each concrete Go target type is embedded as
  an explicit decoder `Json → Option τ` (`none` = unmarshal error), following
  Go's semantics: absent or `null` fields leave the zero value, fields of the
  wrong JSON kind fail, unknown fields are ignored, and for duplicate keys the
  last occurrence wins.
- `url.Values` is a map from keys to lists of values, embedded as an
  association list with unique keys; `valuesAdd` is `url.Values.Add` (append,
  never overwrite) and `valuesEncode` is `url.Values.Encode` at the level of
  key/value pairs (keys sorted; percent-escaping of the raw text is not
  modelled, the claims are stated at the key/value level).
- `http.Header` is embedded single-valued (`headerSet`/`headerDel`/`headerGet`
  are `Set`/`Del`/`Get`); MIME canonicalization of header keys is not
  modelled since every access in the source uses the identical literal key.
- The single network round trip of a call (`m.Client.Do` plus `io.ReadAll`)
  is abstracted as a `RoundTrip` value passed to the embedded function:
  `.error msg` is a transport/read failure, `.ok res` a delivered response.
- Stateful methods take the receiver and return the updated receiver
  explicitly.
-/

/-- A JSON document, as far as the wire envelopes of the library need it
(numbers restricted to integers, see the module comment). -/
inductive Json where
  | null
  | bool (b : Bool)
  | num (n : Int)
  | str (s : String)
  | arr (elems : List Json)
  | obj (fields : List (String × Json))

/-- Field lookup in a JSON object, with Go's duplicate-key semantics: the
last occurrence of the key wins. -/
def jsonField (fields : List (String × Json)) (key : String) : Option Json :=
  (fields.filter (fun kv => kv.1 == key)).getLast?.map (fun kv => kv.2)

/-- Unmarshal a JSON object field into a Go `int` struct field: absent or
null leaves the zero value, a number is taken, anything else is an error. -/
def decodeIntField (fields : List (String × Json)) (key : String) : Option Int :=
  match jsonField fields key with
  | none => some 0
  | some Json.null => some 0
  | some (Json.num n) => some n
  | some _ => none

/-- Unmarshal a JSON object field into a Go `string` struct field. -/
def decodeStrField (fields : List (String × Json)) (key : String) : Option String :=
  match jsonField fields key with
  | none => some ""
  | some Json.null => some ""
  | some (Json.str s) => some s
  | some _ => none

/-- Unmarshal a JSON object field into a Go `*json.RawMessage` struct field:
absent or null leaves the pointer nil (`none`), any other JSON value is
captured raw. -/
def decodeRawField (fields : List (String × Json)) (key : String) :
    Option (Option Json) :=
  match jsonField fields key with
  | none => some none
  | some Json.null => some none
  | some v => some (some v)

/-- ResponseLogin: the standard response struct from login requests. -/
structure ResponseLogin where
  Session : String
deriving DecidableEq

/-- ResponseGet: the standard response struct from GET requests
(`odata.count` and a `*json.RawMessage` value field). -/
structure ResponseGet where
  Count : Int
  Value : Option Json

/-- The inner message object of the error envelope. -/
structure ErrorMessage where
  Lang : String
  Value : String
deriving DecidableEq

/-- The inner object of the error envelope (`error` key). -/
structure ErrorBody where
  Code : Int
  Message : ErrorMessage
deriving DecidableEq

/-- ResponseError: the standard response struct for errors. -/
structure ResponseError where
  Err : ErrorBody
deriving DecidableEq

/-- The Error method of ResponseError: the externally visible error text is
the embedded message value. -/
def ResponseError.Error (r : ResponseError) : String :=
  r.Err.Message.Value

/-- json.Unmarshal into `ResponseLogin`. -/
def decodeResponseLogin (j : Json) : Option ResponseLogin :=
  match j with
  | Json.null => some ⟨""⟩
  | Json.obj fields => (decodeStrField fields "session").map (fun s => ⟨s⟩)
  | _ => none

/-- json.Unmarshal into `ResponseGet`. -/
def decodeResponseGet (j : Json) : Option ResponseGet :=
  match j with
  | Json.null => some ⟨0, none⟩
  | Json.obj fields =>
    match decodeIntField fields "odata.count", decodeRawField fields "value" with
    | some c, some v => some ⟨c, v⟩
    | _, _ => none
  | _ => none

/-- json.Unmarshal into the nested `message` struct field. -/
def decodeMessageField (fields : List (String × Json)) (key : String) :
    Option ErrorMessage :=
  match jsonField fields key with
  | none => some ⟨"", ""⟩
  | some Json.null => some ⟨"", ""⟩
  | some (Json.obj mf) =>
    match decodeStrField mf "lang", decodeStrField mf "value" with
    | some l, some v => some ⟨l, v⟩
    | _, _ => none
  | some _ => none

/-- json.Unmarshal into `ResponseError`. -/
def decodeResponseError (j : Json) : Option ResponseError :=
  match j with
  | Json.null => some ⟨⟨0, ⟨"", ""⟩⟩⟩
  | Json.obj fields =>
    match jsonField fields "error" with
    | none => some ⟨⟨0, ⟨"", ""⟩⟩⟩
    | some Json.null => some ⟨⟨0, ⟨"", ""⟩⟩⟩
    | some (Json.obj ef) =>
      match decodeIntField ef "code", decodeMessageField ef "message" with
      | some c, some msg => some ⟨⟨c, msg⟩⟩
      | _, _ => none
    | some _ => none
  | _ => none

/-- url.Values: a map from query keys to lists of values, as an association
list with unique keys. -/
abbrev Values : Type := List (String × List String)

/-- The empty `url.Values{}` map. -/
def emptyValues : Values := ([] : List (String × List String))

/-- Map lookup on `url.Values` (the key is either present with its value
list, or absent). -/
def valuesGet : Values → String → Option (List String)
  | [], _ => none
  | kv :: rest, key => if kv.1 = key then some kv.2 else valuesGet rest key

/-- url.Values.Add: appends the value to the key's list, never overwriting
existing values. -/
def valuesAdd : Values → String → String → Values
  | [], key, value => [(key, [value])]
  | kv :: rest, key, value =>
    if kv.1 = key then (kv.1, kv.2 ++ [value]) :: rest
    else kv :: valuesAdd rest key value

/-- String order on the underlying characters (sort.Strings compares byte
sequences; for UTF-8 the byte order equals the code-point order used
here). -/
def charsLe : List Char → List Char → Bool
  | [], _ => true
  | _ :: _, [] => false
  | x :: xs, y :: ys =>
    if x < y then true
    else if y < x then false
    else charsLe xs ys

/-- String comparison used to sort the query keys. -/
def strLe (a b : String) : Bool :=
  charsLe a.data b.data

/-- Insertion step of the key sort of url.Values.Encode. -/
def insertEntry (e : String × List String) : Values → Values
  | [] => [e]
  | x :: xs => if strLe e.1 x.1 then e :: x :: xs else x :: insertEntry e xs

/-- Sorting the entries of a url.Values map by key (sort.Strings over the
collected keys). -/
def sortByKey : Values → Values
  | [] => []
  | x :: xs => insertEntry x (sortByKey xs)

/-- url.Values.Encode at the key/value-pair level: keys sorted, each key's
values emitted in order (percent-escaping of the text is not modelled). -/
def valuesEncode (vs : Values) : List (String × String) :=
  ((sortByKey vs).map (fun kv => kv.2.map (fun v => (kv.1, v)))).flatten

/-- A key/value pair is carried by a `url.Values` map. -/
def valuesHasPair (vs : Values) (key value : String) : Prop :=
  ∃ e ∈ vs, e.1 = key ∧ value ∈ e.2

/-- http.Header, single-valued (the source only uses Set, Del and Get). -/
abbrev Header : Type := List (String × String)

/-- The empty `http.Header{}`. -/
def emptyHeader : Header := ([] : List (String × String))

/-- http.Header.Get: the value stored under the key, if any. -/
def headerGet : Header → String → Option String
  | [], _ => none
  | kv :: rest, key => if kv.1 = key then some kv.2 else headerGet rest key

/-- http.Header.Del: removes the key from the header map. -/
def headerDel : Header → String → Header
  | [], _ => []
  | kv :: rest, key =>
    if kv.1 = key then headerDel rest key else kv :: headerDel rest key

/-- http.Header.Set: replaces whatever the key held by the single value. -/
def headerSet (h : Header) (key value : String) : Header :=
  headerDel h key ++ [(key, value)]

/-- AuthType: Millennium authentication type (a string type in the source). -/
abbrev AuthType : Type := String

/-- Authentication type NTLM. -/
def NTLM : AuthType := "NTLM"

/-- Authentication type Session. -/
def Session : AuthType := "SESSION"

/-- Modelled from the spec: the Basic authentication type.  The revisions of
millennium.go present under src define only NTLM and Session, yet the
repository's current test file uses a `Basic` constant (TestBasicAuth), so
the revision of millennium.go defining it is missing; the spec's auth-mode
enum is NTLM, Session, Basic. -/
def Basic : AuthType := "BASIC"

/-- HTTPMethod type to communicate with Millennium (a string type). -/
abbrev HTTPMethod : Type := String

/-- HTTP method GET. -/
def GET : HTTPMethod := "GET"

/-- HTTP method POST. -/
def POST : HTTPMethod := "POST"

/-- HTTP method DELETE. -/
def DELETE : HTTPMethod := "DELETE"

/-- The credentials field of the Millennium struct. -/
structure Credentials where
  Username : String
  Password : String
  AuthType : AuthType
  Session : String
deriving DecidableEq

/-- The Millennium client struct: server address, timeout, the shared header
set and the stored credentials.  The retryable HTTP client itself is
abstracted away except for the NTLM-negotiator transport flag, which records
the assignment to Client.HTTPClient.Transport made by Login; the
cancellation context is not modelled. -/
structure Millennium where
  ServerAddr : String
  Timeout : Int
  headers : Header
  credentials : Credentials
  ntlmNegotiator : Bool

/-- An HTTP response as the library consumes it: the status code and the
body bytes already read (`none` = the bytes are not a valid JSON document,
an empty body included). -/
structure HttpResponse where
  statusCode : Nat
  body : Option Json

/-- The outcome of the single network round trip of a call (Client.Do plus
reading the body): a transport/read failure message or a delivered
response. -/
abbrev RoundTrip : Type := Except String HttpResponse

/-- The error value a call can return, mirroring the Go error values the
source constructs: validation errors, request-build errors, transport
failures, json decode failures, the typed *ResponseError, and fmt.Errorf
%w-wraps adding context text. -/
inductive CallError where
  | validation (msg : String)
  | requestBuild (msg : String)
  | transport (msg : String)
  | decodeFailure (msg : String)
  | remote (e : ResponseError)
  | wrapped (context : String) (inner : CallError)
deriving DecidableEq

/-- The display text of a call error (the Error() method of the underlying
Go error value; for the typed *ResponseError this is ResponseError.Error). -/
def CallError.text : CallError → String
  | CallError.validation msg => msg
  | CallError.requestBuild msg => msg
  | CallError.transport msg => msg
  | CallError.decodeFailure msg => msg
  | CallError.remote e => ResponseError.Error e
  | CallError.wrapped context inner => context ++ CallError.text inner

/-- Whether a call error is (a wrap of) a json decode failure. -/
def CallError.isDecodeFailure : CallError → Bool
  | CallError.decodeFailure _ => true
  | CallError.wrapped _ inner => CallError.isDecodeFailure inner
  | _ => false

/-- getResponse: handles a delivered response.  Status >= 400: unmarshal the
body as the error envelope, returning the decode error (wrapped with
context) on failure and the typed *ResponseError on success.  Status < 400:
unmarshal the body into the output sink; the sink's json.Unmarshal is the
`decodeSink` parameter. -/
def getResponse {σ : Type} (res : HttpResponse) (decodeSink : Json → Option σ) :
    Except CallError σ :=
  if 400 ≤ res.statusCode then
    match res.body with
    | none =>
      Except.error (CallError.wrapped "unable to unmarshal error response: "
        (CallError.decodeFailure "invalid JSON document"))
    | some j =>
      match decodeResponseError j with
      | none =>
        Except.error (CallError.wrapped "unable to unmarshal error response: "
          (CallError.decodeFailure "json: cannot unmarshal into ResponseError"))
      | some e => Except.error (CallError.remote e)
  else
    match res.body with
    | none => Except.error (CallError.decodeFailure "invalid JSON document")
    | some j =>
      match decodeSink j with
      | none => Except.error (CallError.decodeFailure "json: cannot unmarshal into output")
      | some v => Except.ok v

/-- sendRequest: performs the round trip (wrapping transport failures with
context) and hands the response to getResponse.  The per-call timeout
context installed around Client.Do is not modelled. -/
def sendRequest {σ : Type} (rt : RoundTrip) (decodeSink : Json → Option σ) :
    Except CallError σ :=
  match rt with
  | Except.error msg =>
    Except.error (CallError.wrapped "unable to send request: " (CallError.transport msg))
  | Except.ok res => getResponse res decodeSink

/-- Whether a character may appear in an HTTP method token
(net/http validMethod); the two quote characters, also token characters,
are left out of the literal list, no claim involves them. -/
def isTokenChar (c : Char) : Bool :=
  c.isAlphanum ||
    List.contains ['!', '#', '$', '%', '&', '*', '+', '-', '.', '^', '_', '|', '~'] c

/-- Validity of the HTTP method string as checked by http.NewRequest (an
empty method has already been defaulted to GET before this check). -/
def isValidMethod (method : String) : Bool :=
  method.data.length > 0 && method.data.all isTokenChar

/-- strings.ToUpper on the characters of a string (faithful for ASCII,
which is all the source feeds it; Unicode case mapping beyond ASCII is not
modelled). -/
def goToUpper (s : String) : String :=
  String.mk (s.data.map Char.toUpper)

/-- RequestMethod: the data passed to the Request function.  The nil-ness of
the Params map is `Option Values`; the nil-ness of the Response sink is
`hasResponse` (its json.Unmarshal is a separate decoder parameter of
`Request`); Body is carried but never inspected by the pipeline. -/
structure RequestMethod where
  HTTPMethod : HTTPMethod
  Method : String
  Params : Option Values
  Body : String
  hasResponse : Bool

/-- The outgoing request as built by Request: verb, target pieces, the
attached shared header set and the basic-auth credentials attached to it
(`none` when SetBasicAuth was not called). -/
structure BuiltRequest where
  httpMethod : String
  serverAddr : String
  apiMethod : String
  queryPairs : List (String × String)
  headers : Header
  basicAuth : Option (String × String)

/-- Everything observable about one Request call: the returned error-or-ok,
the query pairs constructed for the target address (`none` when validation
returned first), the built outgoing request (`none` when validation or the
request constructor failed), whether the request was handed to the client
for dispatch, and the caller's Params map after the call returns (the map is
shared by reference, so the Add calls of Request are visible to the
caller). -/
structure RequestResult (σ : Type) where
  result : Except CallError σ
  queryPairs : Option (List (String × String))
  built : Option BuiltRequest
  dispatched : Bool
  callerParams : Option Values

/-- Modelled from the spec: whether Request attaches basic-auth credentials
for the stored auth mode ("If auth-mode = NTLM or Basic, attach per-request
basic-auth credentials from stored username/password").  The millennium.go
revisions under src attach only for NTLM and define no Basic constant, but
the repository's test file (TestBasicAuth) requires Basic-mode calls to
carry basic auth, so the deciding revision is missing from src. -/
def attachesBasicAuth (mode : AuthType) : Bool :=
  mode == NTLM || mode == Basic

/-- Request: validates the method name, normalizes a nil Params map,
validates the Response sink for GET/POST, appends the two fixed query
parameters, builds the outgoing request (URL-parse failures of the server
address are not modelled; the method-token check of http.NewRequest is),
attaches the shared header set and, per auth mode, basic auth, then
dispatches through sendRequest. -/
def Request {σ : Type} (m : Millennium) (r : RequestMethod)
    (decodeSink : Json → Option σ) (rt : RoundTrip) : RequestResult σ :=
  if r.Method = "" then
    { result := Except.error (CallError.validation "requested method could not be empty"),
      queryPairs := none, built := none, dispatched := false,
      callerParams := r.Params }
  else
    let params0 : Values := r.Params.getD emptyValues
    if r.hasResponse = false ∧ (r.HTTPMethod = "POST" ∨ r.HTTPMethod = "GET") then
      { result := Except.error (CallError.validation "response should have something to point to"),
        queryPairs := none, built := none, dispatched := false,
        callerParams := r.Params }
    else
      let params1 := valuesAdd (valuesAdd params0 "$format" "json") "$dateformat" "iso"
      let encoded := valuesEncode params1
      let callerAfter := r.Params.map (fun _ => params1)
      let methodToken := if r.HTTPMethod = "" then "GET" else r.HTTPMethod
      if isValidMethod methodToken then
        { result := sendRequest rt decodeSink,
          queryPairs := some encoded,
          built := some
            { httpMethod := methodToken,
              serverAddr := m.ServerAddr,
              apiMethod := r.Method,
              queryPairs := encoded,
              headers := m.headers,
              basicAuth :=
                if attachesBasicAuth m.credentials.AuthType then
                  some (m.credentials.Username, m.credentials.Password)
                else none },
          dispatched := true,
          callerParams := callerAfter }
      else
        { result := Except.error (CallError.wrapped
            "unable to start new request to Millennium: "
            (CallError.requestBuild "net/http: invalid method")),
          queryPairs := some encoded, built := none, dispatched := false,
          callerParams := callerAfter }

/-- The result of a Get call as the caller observes it: a run-time panic
(nil *json.RawMessage dereference), a failure (count plus a non-nil error),
or a success (count plus the decoded values). -/
inductive GetResult (σ : Type) where
  | panics
  | fails (count : Int) (err : CallError)
  | ok (count : Int) (val : σ)

/-- Get: requests a method using the GET http method, decodes the list
envelope, then re-unmarshals the raw value field into the caller's response
sink (`decodeInner`); dereferences the Value pointer without a nil check. -/
def Get {σ : Type} (m : Millennium) (method : String) (params : Option Values)
    (decodeInner : Json → Option σ) (rt : RoundTrip) : GetResult σ :=
  match (Request m
      { HTTPMethod := GET, Method := method, Params := params,
        Body := "", hasResponse := true }
      decodeResponseGet rt).result with
  | Except.error e =>
    GetResult.fails 0 (CallError.wrapped "unable to make the request to Millennium: " e)
  | Except.ok res =>
    match res.Value with
    | none => GetResult.panics
    | some raw =>
      match decodeInner raw with
      | none =>
        GetResult.fails 0 (CallError.wrapped "unable to unmarshal JSON: "
          (CallError.decodeFailure "json: cannot unmarshal into response"))
      | some v => GetResult.ok res.Count v

/-- Post: requests a method using the POST http method with a non-nil empty
Params map and the caller's response sink. -/
def Post {σ : Type} (m : Millennium) (method : String) (body : String)
    (decodeSink : Json → Option σ) (rt : RoundTrip) : Except CallError σ :=
  (Request m
    { HTTPMethod := POST, Method := method, Params := some emptyValues,
      Body := body, hasResponse := true }
    decodeSink rt).result

/-- json.Unmarshal into the nil Response sink of a Delete call: the decoder
unmarshals into a pointer chain ending in a nil interface value, which
succeeds for every valid JSON document. -/
def decodeIntoNilInterface : Json → Option Unit := fun _ => some ()

/-- Delete: requests a method using the DELETE http method, with no Body and
a nil Response sink.  The Go function returns only the error, i.e. the
`result` field; the full RequestResult is kept so the built request is
observable. -/
def Delete (m : Millennium) (method : String) (params : Option Values)
    (rt : RoundTrip) : RequestResult Unit :=
  Request m
    { HTTPMethod := DELETE, Method := method, Params := params,
      Body := "", hasResponse := false }
    decodeIntoNilInterface rt

/-- Login: stores username and password, installs the NTLM negotiator
transport for NTLM, and for Session sets the transient WTS-Authorization
header, posts to the login method (that call's round trip is the `rt`
parameter), and on success deletes the transient header, stores the session
token and sets the WTS-Session header.  Returns the updated client and the
returned error (`none` = nil). -/
def Login (m : Millennium) (username password : String) (authType : AuthType)
    (rt : RoundTrip) : Millennium × Option CallError :=
  let m1 := { m with credentials :=
    { m.credentials with Username := username, Password := password } }
  let m2 := if authType = NTLM then { m1 with ntlmNegotiator := true } else m1
  if authType = Session then
    let m3 := { m2 with headers := (headerSet m2.headers "WTS-Authorization"
      (goToUpper username ++ "/" ++ goToUpper password)) }
    match Post m3 "login" "" decodeResponseLogin rt with
    | Except.error e => (m3, some e)
    | Except.ok responseLogin =>
      let m4 := { m3 with headers := headerDel m3.headers "WTS-Authorization" }
      let m5 := { m4 with credentials :=
        { m4.credentials with Session := responseLogin.Session } }
      let m6 := { m5 with headers :=
        (headerSet m5.headers "WTS-Session" m5.credentials.Session) }
      ({ m6 with credentials := { m6.credentials with AuthType := authType } }, none)
  else
    ({ m2 with credentials := { m2.credentials with AuthType := authType } }, none)

/-- NewClient: returns a new Millennium instance after checking the server
address and the timeout; no network activity (the retryable client is only
configured). -/
def NewClient (server : String) (timeout : Int) : Except String Millennium :=
  if server = "" then Except.error "no server address defined"
  else if timeout = 0 then Except.error "timeout is zero"
  else Except.ok
    { ServerAddr := server, Timeout := timeout, headers := emptyHeader,
      credentials := { Username := "", Password := "", AuthType := "", Session := "" },
      ntlmNegotiator := false }

/-! Supporting lemmas about the header-set and query-map operations. -/

theorem headerGet_headerDel_self (h : Header) (k : String) :
    headerGet (headerDel h k) k = none := by
  induction h with
  | nil => rfl
  | cons kv rest ih =>
    by_cases hk : kv.1 = k
    · rw [headerDel, if_pos hk]
      exact ih
    · rw [headerDel, if_neg hk, headerGet, if_neg hk]
      exact ih

theorem headerGet_append_right (h₁ h₂ : Header) (k : String)
    (h : headerGet h₁ k = none) : headerGet (h₁ ++ h₂) k = headerGet h₂ k := by
  induction h₁ with
  | nil => rfl
  | cons kv rest ih =>
    rw [headerGet] at h
    by_cases hk : kv.1 = k
    · rw [if_pos hk] at h
      exact absurd h (by simp)
    · rw [if_neg hk] at h
      rw [List.cons_append, headerGet, if_neg hk]
      exact ih h

theorem headerGet_headerSet_self (h : Header) (k v : String) :
    headerGet (headerSet h k v) k = some v := by
  unfold headerSet
  rw [headerGet_append_right _ _ _ (headerGet_headerDel_self h k)]
  rw [headerGet, if_pos rfl]

theorem headerGet_headerDel_ne (h : Header) (k k' : String) (hne : k' ≠ k) :
    headerGet (headerDel h k) k' = headerGet h k' := by
  induction h with
  | nil => rfl
  | cons kv rest ih =>
    by_cases hk : kv.1 = k
    · have hnotk' : ¬ kv.1 = k' := fun hc => hne (by rw [← hc, hk])
      rw [headerDel, if_pos hk, headerGet, if_neg hnotk']
      exact ih
    · rw [headerDel, if_neg hk, headerGet, headerGet]
      by_cases hk' : kv.1 = k'
      · rw [if_pos hk', if_pos hk']
      · rw [if_neg hk', if_neg hk']
        exact ih

theorem headerGet_headerSet_ne (h : Header) (k k' v : String) (hne : k' ≠ k) :
    headerGet (headerSet h k v) k' = headerGet h k' := by
  unfold headerSet
  induction h with
  | nil =>
    rw [headerDel, List.nil_append]
    simp [headerGet, Ne.symm hne]
  | cons kv rest ih =>
    by_cases hk : kv.1 = k
    · have hnotk' : ¬ kv.1 = k' := fun hc => hne (by rw [← hc, hk])
      rw [headerDel, if_pos hk, headerGet, if_neg hnotk']
      exact ih
    · rw [headerDel, if_neg hk, List.cons_append, headerGet, headerGet]
      by_cases hk' : kv.1 = k'
      · rw [if_pos hk', if_pos hk']
      · rw [if_neg hk', if_neg hk']
        exact ih

theorem valuesGet_valuesAdd_self (vs : Values) (k v : String) :
    valuesGet (valuesAdd vs k v) k = some ((valuesGet vs k).getD [] ++ [v]) := by
  induction vs with
  | nil => simp [valuesAdd, valuesGet]
  | cons kv rest ih =>
    by_cases hk : kv.1 = k
    · rw [valuesAdd, if_pos hk, valuesGet, if_pos hk, valuesGet, if_pos hk]
      rfl
    · rw [valuesAdd, if_neg hk, valuesGet, if_neg hk, valuesGet, if_neg hk]
      exact ih

theorem valuesGet_valuesAdd_ne (vs : Values) (k k' v : String) (hne : k' ≠ k) :
    valuesGet (valuesAdd vs k v) k' = valuesGet vs k' := by
  induction vs with
  | nil => simp [valuesAdd, valuesGet, Ne.symm hne]
  | cons kv rest ih =>
    by_cases hk : kv.1 = k
    · have hnotk' : ¬ kv.1 = k' := fun hc => hne (by rw [← hc, hk])
      rw [valuesAdd, if_pos hk, valuesGet, valuesGet, if_neg hnotk', if_neg hnotk']
    · rw [valuesAdd, if_neg hk, valuesGet, valuesGet]
      by_cases hk' : kv.1 = k'
      · rw [if_pos hk', if_pos hk']
      · rw [if_neg hk', if_neg hk']
        exact ih

theorem valuesHasPair_valuesAdd_self (vs : Values) (k v : String) :
    valuesHasPair (valuesAdd vs k v) k v := by
  induction vs with
  | nil => exact ⟨(k, [v]), by simp [valuesAdd], rfl, by simp⟩
  | cons kv rest ih =>
    by_cases hk : kv.1 = k
    · exact ⟨(kv.1, kv.2 ++ [v]), by simp [valuesAdd, hk], hk, by simp⟩
    · obtain ⟨e, he, hek, hev⟩ := ih
      exact ⟨e, by simp [valuesAdd, hk, he], hek, hev⟩

theorem valuesHasPair_valuesAdd_mono (vs : Values) (k v k' v' : String)
    (h : valuesHasPair vs k v) : valuesHasPair (valuesAdd vs k' v') k v := by
  induction vs with
  | nil => exact absurd h (by simp [valuesHasPair])
  | cons kv rest ih =>
    obtain ⟨e, he, hek, hev⟩ := h
    rcases List.mem_cons.mp he with rfl | htail
    · by_cases hk : e.1 = k'
      · exact ⟨(e.1, e.2 ++ [v']), by simp [valuesAdd, hk], hek,
          List.mem_append_left _ hev⟩
      · exact ⟨e, by simp [valuesAdd, hk], hek, hev⟩
    · by_cases hk : kv.1 = k'
      · exact ⟨e, by simp [valuesAdd, hk, htail], hek, hev⟩
      · obtain ⟨e₂, he₂, hek₂, hev₂⟩ := ih ⟨e, htail, hek, hev⟩
        exact ⟨e₂, by simp [valuesAdd, hk, he₂], hek₂, hev₂⟩

theorem insertEntry_perm (e : String × List String) (l : Values) :
    List.Perm (insertEntry e l) (e :: l) := by
  induction l with
  | nil => rfl
  | cons x xs ih =>
    rw [insertEntry]
    by_cases hle : strLe e.1 x.1 = true
    · rw [if_pos hle]
    · rw [if_neg hle]
      exact List.Perm.trans (List.Perm.cons x ih) (List.Perm.swap e x xs)

theorem sortByKey_perm (l : Values) : List.Perm (sortByKey l) l := by
  induction l with
  | nil => rfl
  | cons x xs ih =>
    exact List.Perm.trans (insertEntry_perm x (sortByKey xs)) (List.Perm.cons x ih)

theorem mem_valuesEncode_iff (vs : Values) (k v : String) :
    (k, v) ∈ valuesEncode vs ↔ valuesHasPair vs k v := by
  unfold valuesEncode valuesHasPair
  rw [List.mem_flatten]
  constructor
  · rintro ⟨l, hl, hmem⟩
    rw [List.mem_map] at hl
    obtain ⟨e, he, rfl⟩ := hl
    rw [List.mem_map] at hmem
    obtain ⟨w, hw, heq⟩ := hmem
    cases heq
    exact ⟨e, (sortByKey_perm vs).mem_iff.mp he, rfl, hw⟩
  · rintro ⟨e, he, hk, hv⟩
    refine ⟨e.2.map (fun w => (e.1, w)), ?_, ?_⟩
    · exact List.mem_map.mpr ⟨e, (sortByKey_perm vs).mem_iff.mpr he, rfl⟩
    · exact List.mem_map.mpr ⟨v, hv, by rw [hk]⟩

/-- The params map Request ends with: the two fixed parameters appended to
the (normalized) caller map. -/
def withDefaultParams (params : Option Values) : Values :=
  valuesAdd (valuesAdd (params.getD emptyValues) "$format" "json") "$dateformat" "iso"

/-- The client state after the credential-storing and transient-header step
of a Session-mode Login, which is also the state Login returns in when the
inner login call fails. -/
def sessionLoginState (m : Millennium) (username password : String) : Millennium :=
  { m with
      credentials := { m.credentials with Username := username, Password := password },
      headers := (headerSet m.headers "WTS-Authorization"
        (goToUpper username ++ "/" ++ goToUpper password)) }

/-- The client state a successful Session-mode Login returns in. -/
def sessionLoginSuccessState (m : Millennium) (username password : String)
    (rl : ResponseLogin) : Millennium :=
  { m with
      credentials := ({ m.credentials with
        Username := username
        Password := password
        Session := rl.Session
        AuthType := Session }),
      headers := (headerSet (headerDel (headerSet m.headers "WTS-Authorization"
        (goToUpper username ++ "/" ++ goToUpper password)) "WTS-Authorization")
        "WTS-Session" rl.Session) }

theorem Login_session_eq (m : Millennium) (u p : String) (rt : RoundTrip) :
    Login m u p Session rt =
      match Post (sessionLoginState m u p) "login" "" decodeResponseLogin rt with
      | Except.error e => (sessionLoginState m u p, some e)
      | Except.ok rl => (sessionLoginSuccessState m u p rl, none) := rfl

theorem Request_valid_eq {σ : Type} (m : Millennium) (r : RequestMethod)
    (ds : Json → Option σ) (rt : RoundTrip)
    (hm : ¬ r.Method = "")
    (hs : ¬ (r.hasResponse = false ∧ (r.HTTPMethod = "POST" ∨ r.HTTPMethod = "GET")))
    (hv : isValidMethod (if r.HTTPMethod = "" then "GET" else r.HTTPMethod) = true) :
    Request m r ds rt =
      { result := sendRequest rt ds,
        queryPairs := some (valuesEncode (withDefaultParams r.Params)),
        built := some
          { httpMethod := (if r.HTTPMethod = "" then "GET" else r.HTTPMethod),
            serverAddr := m.ServerAddr,
            apiMethod := r.Method,
            queryPairs := valuesEncode (withDefaultParams r.Params),
            headers := m.headers,
            basicAuth := (if attachesBasicAuth m.credentials.AuthType then
              some (m.credentials.Username, m.credentials.Password) else none) },
        dispatched := true,
        callerParams := r.Params.map (fun _ => withDefaultParams r.Params) } := by
  unfold Request
  rw [if_neg hm, if_neg hs, if_pos hv]
  rfl

theorem Request_queryPairs_eq {σ : Type} (m : Millennium) (r : RequestMethod)
    (ds : Json → Option σ) (rt : RoundTrip)
    (hm : ¬ r.Method = "")
    (hs : ¬ (r.hasResponse = false ∧ (r.HTTPMethod = "POST" ∨ r.HTTPMethod = "GET"))) :
    (Request m r ds rt).queryPairs = some (valuesEncode (withDefaultParams r.Params)) := by
  unfold Request
  rw [if_neg hm, if_neg hs]
  by_cases hval : isValidMethod (if r.HTTPMethod = "" then "GET" else r.HTTPMethod) = true
  · rw [if_pos hval]
    rfl
  · rw [if_neg hval]
    rfl

theorem Request_callerParams_eq {σ : Type} (m : Millennium) (r : RequestMethod)
    (ds : Json → Option σ) (rt : RoundTrip)
    (hm : ¬ r.Method = "")
    (hs : ¬ (r.hasResponse = false ∧ (r.HTTPMethod = "POST" ∨ r.HTTPMethod = "GET"))) :
    (Request m r ds rt).callerParams = r.Params.map (fun _ => withDefaultParams r.Params) := by
  unfold Request
  rw [if_neg hm, if_neg hs]
  by_cases hval : isValidMethod (if r.HTTPMethod = "" then "GET" else r.HTTPMethod) = true
  · rw [if_pos hval]
    rfl
  · rw [if_neg hval]
    rfl

theorem Get_eq {σ : Type} (m : Millennium) (method : String) (params : Option Values)
    (di : Json → Option σ) (rt : RoundTrip) (hm : ¬ method = "") :
    Get m method params di rt =
      match sendRequest rt decodeResponseGet with
      | Except.error e =>
        GetResult.fails 0 (CallError.wrapped "unable to make the request to Millennium: " e)
      | Except.ok res =>
        match res.Value with
        | none => GetResult.panics
        | some raw =>
          match di raw with
          | none =>
            GetResult.fails 0 (CallError.wrapped "unable to unmarshal JSON: "
              (CallError.decodeFailure "json: cannot unmarshal into response"))
          | some v => GetResult.ok res.Count v := by
  unfold Get
  have h := Request_valid_eq (σ := ResponseGet) m
    { HTTPMethod := GET, Method := method, Params := params, Body := "",
      hasResponse := true }
    decodeResponseGet rt hm (by simp)
    (show isValidMethod (if (GET : HTTPMethod) = "" then "GET" else GET) = true by decide)
  rw [h]

/-- A concrete client used by the witnesses and counterexamples below. -/
def testClient : Millennium :=
  { ServerAddr := "http://server", Timeout := 30, headers := emptyHeader,
    credentials := { Username := "", Password := "", AuthType := "", Session := "" },
    ntlmNegotiator := false }

/-- C1 counterexample: a Session-mode Login whose inner login request fails
returns with the transient WTS-Authorization header still present in the
client's shared header set, so the claim that the header is absent after
Login returns "whether the inner login request succeeded or failed" is false
on the code (the source deletes the header only after a successful Post). -/
theorem c1_counterexample :
    (Login testClient "user" "pw" Session (Except.error "connection refused")).2.isSome
      = true ∧
    headerGet (Login testClient "user" "pw" Session
      (Except.error "connection refused")).1.headers "WTS-Authorization" =
      some "USER/PW" :=
  ⟨rfl, rfl⟩

/-- C1 (amended): after a Session-mode Login that returns successfully, the
transient WTS-Authorization header is absent from the client's shared header
set; when the inner login request fails, Login returns the error with the
transient header still set. -/
theorem login_session_transient_header (m : Millennium) (u p : String) (rt : RoundTrip) :
    ((Login m u p Session rt).2 = none →
      headerGet (Login m u p Session rt).1.headers "WTS-Authorization" = none) ∧
    (∀ e, (Login m u p Session rt).2 = some e →
      headerGet (Login m u p Session rt).1.headers "WTS-Authorization" =
        some (goToUpper u ++ "/" ++ goToUpper p)) := by
  rw [Login_session_eq]
  cases hp : Post (sessionLoginState m u p) "login" "" decodeResponseLogin rt with
  | error e =>
    constructor
    · intro h
      exact absurd h (by simp)
    · intro e' he'
      unfold sessionLoginState
      exact headerGet_headerSet_self _ _ _
  | ok rl =>
    constructor
    · intro _
      unfold sessionLoginSuccessState
      rw [headerGet_headerSet_ne _ _ _ _ (by decide)]
      exact headerGet_headerDel_self _ _
    · intro e he
      exact absurd he (by simp)

/-- Witness for C1's amended theorem at concrete inputs: a successful login
leaves no WTS-Authorization header, a failed one leaves it set. -/
theorem login_session_transient_header_witness :
    headerGet (Login testClient "user" "pw" Session
      (Except.ok ⟨200, some (Json.obj [("session", Json.str "tok")])⟩)).1.headers
      "WTS-Authorization" = none ∧
    headerGet (Login testClient "user" "pw" Session
      (Except.error "connection refused")).1.headers "WTS-Authorization" =
      some "USER/PW" :=
  ⟨(login_session_transient_header testClient "user" "pw"
      (Except.ok ⟨200, some (Json.obj [("session", Json.str "tok")])⟩)).1 rfl,
   (login_session_transient_header testClient "user" "pw"
      (Except.error "connection refused")).2
     (CallError.wrapped "unable to send request: "
       (CallError.transport "connection refused")) rfl⟩

/-- C7 counterexample: on a fresh client a Session-mode Login whose network
call fails returns the error, but the stored auth-mode is still the zero
value, not Session — the source records the auth-mode only after the
Session branch succeeds, so the claim that the auth-mode is recorded even on
failure is false. -/
theorem c7_counterexample :
    (Login testClient "user" "pw" Session (Except.error "connection refused")).2.isSome
      = true ∧
    (Login testClient "user" "pw" Session
      (Except.error "connection refused")).1.credentials.AuthType = "" ∧
    ¬ (Login testClient "user" "pw" Session
      (Except.error "connection refused")).1.credentials.AuthType = Session :=
  ⟨rfl, rfl, by decide⟩

/-- C7 (amended): if the network call made during a Session-mode Login
fails, Login returns the error; the supplied username and password are
recorded in the credentials, no session token is stored (the stored token is
unchanged), and the auth-mode is not updated (it keeps its prior value). -/
theorem login_session_failure_state (m : Millennium) (u p : String) (rt : RoundTrip) :
    ∀ e, (Login m u p Session rt).2 = some e →
      (Login m u p Session rt).1.credentials.Username = u ∧
      (Login m u p Session rt).1.credentials.Password = p ∧
      (Login m u p Session rt).1.credentials.Session = m.credentials.Session ∧
      (Login m u p Session rt).1.credentials.AuthType = m.credentials.AuthType := by
  rw [Login_session_eq]
  cases hp : Post (sessionLoginState m u p) "login" "" decodeResponseLogin rt with
  | error e =>
    intro e' he'
    exact ⟨rfl, rfl, rfl, rfl⟩
  | ok rl =>
    intro e' he'
    exact absurd he' (by simp)

/-- Witness for C7's amended theorem at a concrete failing login. -/
theorem login_session_failure_state_witness :
    (Login testClient "user" "pw" Session
      (Except.error "connection refused")).1.credentials.Username = "user" ∧
    (Login testClient "user" "pw" Session
      (Except.error "connection refused")).1.credentials.Password = "pw" ∧
    (Login testClient "user" "pw" Session
      (Except.error "connection refused")).1.credentials.Session =
      testClient.credentials.Session ∧
    (Login testClient "user" "pw" Session
      (Except.error "connection refused")).1.credentials.AuthType =
      testClient.credentials.AuthType :=
  login_session_failure_state testClient "user" "pw" (Except.error "connection refused")
    (CallError.wrapped "unable to send request: "
      (CallError.transport "connection refused")) rfl

/-- C2: every list call that fails returns count 0 together with a non-nil
error.  Part one: whenever Get returns a failure, the count is 0 (the error
carried by the failure constructor is the non-nil error value).  Parts two
and three: each failure source — a failed round trip (transport failure,
remote error envelope, or outer decode failure, all surfaced as an error of
the dispatched request) and a decode failure of the inner value array — does
produce such a failure return, never a success or a nil error. -/
theorem get_failure_returns_zero_count {σ : Type} (m : Millennium) (method : String)
    (params : Option Values) (di : Json → Option σ) (rt : RoundTrip)
    (hm : ¬ method = "") :
    (∀ c e, Get m method params di rt = GetResult.fails c e → c = 0) ∧
    (∀ e, sendRequest rt decodeResponseGet = Except.error e →
      Get m method params di rt = GetResult.fails 0
        (CallError.wrapped "unable to make the request to Millennium: " e)) ∧
    (∀ res raw, sendRequest rt decodeResponseGet = Except.ok res →
      res.Value = some raw → di raw = none →
      Get m method params di rt = GetResult.fails 0
        (CallError.wrapped "unable to unmarshal JSON: "
          (CallError.decodeFailure "json: cannot unmarshal into response"))) := by
  refine ⟨?_, ?_, ?_⟩
  · intro c e h
    rw [Get_eq m method params di rt hm] at h
    cases hs : sendRequest rt decodeResponseGet with
    | error e' =>
      rw [hs] at h
      injection h with h1 h2
      exact h1.symm
    | ok res =>
      simp only [hs] at h
      cases hv : res.Value with
      | none =>
        simp only [hv] at h
        exact absurd h (by simp)
      | some raw =>
        simp only [hv] at h
        cases hd : di raw with
        | none =>
          simp only [hd] at h
          injection h with h1 h2
          exact h1.symm
        | some v =>
          simp only [hd] at h
          exact absurd h (by simp)
  · intro e hs
    rw [Get_eq m method params di rt hm]
    simp only [hs]
  · intro res raw hs hraw hdi
    rw [Get_eq m method params di rt hm]
    simp only [hs, hraw, hdi]

/-- Witness for C2 at concrete inputs: a transport failure and an
inner-decode failure both return count 0 with an error. -/
theorem get_failure_returns_zero_count_witness :
    Get testClient "list" (some emptyValues) (fun j => some j)
      (Except.error "connection refused") = GetResult.fails 0
        (CallError.wrapped "unable to make the request to Millennium: "
          (CallError.wrapped "unable to send request: "
            (CallError.transport "connection refused"))) ∧
    Get testClient "list" (some emptyValues) (fun _ => (none : Option Unit))
      (Except.ok ⟨200, some (Json.obj [("odata.count", Json.num 1),
        ("value", Json.arr [])])⟩) = GetResult.fails 0
        (CallError.wrapped "unable to unmarshal JSON: "
          (CallError.decodeFailure "json: cannot unmarshal into response")) :=
  ⟨(get_failure_returns_zero_count testClient "list" (some emptyValues)
      (fun j => some j) (Except.error "connection refused") (by decide)).2.1
      (CallError.wrapped "unable to send request: "
        (CallError.transport "connection refused")) rfl,
   (get_failure_returns_zero_count testClient "list" (some emptyValues)
      (fun _ => (none : Option Unit))
      (Except.ok ⟨200, some (Json.obj [("odata.count", Json.num 1),
        ("value", Json.arr [])])⟩) (by decide)).2.2
      ⟨1, some (Json.arr [])⟩ (Json.arr []) rfl rfl rfl⟩

/-- C9: a list call whose response has status < 400 and a body that decodes
into the list envelope with no value field (such as the body consisting of
an empty JSON object) makes Get dereference the nil raw-message pointer: the
call neither returns an error nor a zero-count success, it panics. -/
theorem get_missing_value_panics {σ : Type} (m : Millennium) (method : String)
    (params : Option Values) (di : Json → Option σ) (res : HttpResponse)
    (j : Json) (c : Int) (hm : ¬ method = "") (hst : res.statusCode < 400)
    (hb : res.body = some j) (hdec : decodeResponseGet j = some ⟨c, none⟩) :
    Get m method params di (Except.ok res) = GetResult.panics := by
  have hnot : ¬ 400 ≤ res.statusCode := by omega
  have hsend : sendRequest (Except.ok res) decodeResponseGet =
      Except.ok (⟨c, none⟩ : ResponseGet) := by
    simp only [sendRequest, getResponse, hb, hdec, if_neg hnot]
  rw [Get_eq m method params di (Except.ok res) hm]
  simp only [hsend]

/-- Witness for C9: the body consisting of the empty JSON object (the JSON
text of two braces) panics a concrete Get. -/
theorem get_missing_value_panics_witness :
    Get testClient "list" (some emptyValues) (fun j => some j)
      (Except.ok ⟨200, some (Json.obj [])⟩) = GetResult.panics :=
  get_missing_value_panics testClient "list" (some emptyValues) (fun j => some j)
    ⟨200, some (Json.obj [])⟩ (Json.obj []) 0 (by decide) (by decide) rfl rfl

/-- C3: for every response with HTTP status >= 400, getResponse returns the
decoded Remote Error Envelope as the typed error, whose display text equals
the envelope's message value; when the body cannot be parsed as the error
envelope a decode error is returned — never a silently-constructed
zero-value envelope. -/
theorem getResponse_remote_error {σ : Type} (res : HttpResponse)
    (ds : Json → Option σ) (hst : 400 ≤ res.statusCode) :
    (res.body.bind decodeResponseError = none →
      ∃ e, getResponse res ds = Except.error e ∧ CallError.isDecodeFailure e = true ∧
        ∀ env, ¬ e = CallError.remote env) ∧
    (∀ env, res.body.bind decodeResponseError = some env →
      getResponse res ds = Except.error (CallError.remote env) ∧
      CallError.text (CallError.remote env) = env.Err.Message.Value) := by
  unfold getResponse
  rw [if_pos hst]
  cases hb : res.body with
  | none =>
    constructor
    · intro _
      exact ⟨_, rfl, rfl, fun env h => CallError.noConfusion h⟩
    · intro env henv
      simp at henv
  | some j =>
    cases hd : decodeResponseError j with
    | none =>
      constructor
      · intro _
        exact ⟨CallError.wrapped "unable to unmarshal error response: "
            (CallError.decodeFailure "json: cannot unmarshal into ResponseError"),
          by simp only [hd], rfl, fun env h => CallError.noConfusion h⟩
      · intro env henv
        simp only [Option.some_bind, hd] at henv
        exact Option.noConfusion henv
    | some env' =>
      constructor
      · intro h
        simp only [Option.some_bind, hd] at h
        exact Option.noConfusion h
      · intro env henv
        simp only [Option.some_bind, hd, Option.some.injEq] at henv
        subst henv
        exact ⟨by simp only [hd], rfl⟩

/-- Witness for C3 at concrete inputs: a 500 response with a valid error
envelope surfaces the typed error with the embedded message as text, and a
500 response with an unparsable body surfaces a decode error. -/
theorem getResponse_remote_error_witness :
    (getResponse (σ := Unit) ⟨500, some (Json.obj [("error", Json.obj
        [("code", Json.num 500), ("message", Json.obj
          [("lang", Json.str "pt"), ("value", Json.str "Query error")])])])⟩
        (fun _ => some ()) =
      Except.error (CallError.remote ⟨⟨500, ⟨"pt", "Query error"⟩⟩⟩) ∧
      CallError.text (CallError.remote ⟨⟨500, ⟨"pt", "Query error"⟩⟩⟩) = "Query error") ∧
    (∃ e, getResponse (σ := Unit) ⟨500, none⟩ (fun _ => some ()) = Except.error e ∧
      CallError.isDecodeFailure e = true ∧ ∀ env, ¬ e = CallError.remote env) :=
  ⟨(getResponse_remote_error (σ := Unit) ⟨500, some (Json.obj [("error", Json.obj
        [("code", Json.num 500), ("message", Json.obj
          [("lang", Json.str "pt"), ("value", Json.str "Query error")])])])⟩
      (fun _ => some ()) (by decide)).2 ⟨⟨500, ⟨"pt", "Query error"⟩⟩⟩ rfl,
   (getResponse_remote_error (σ := Unit) ⟨500, none⟩ (fun _ => some ())
      (by decide)).1 rfl⟩

/-- C4 counterexample: a Delete call whose response has status 200 and an
empty (hence not-JSON) body returns a decode error, not success — the claim
that no body decode is attempted for status < 400 is false on the code
(getResponse always unmarshals the body on the success path, also for
DELETE). -/
theorem c4_counterexample :
    (Delete testClient "obj.remove" (some emptyValues)
      (Except.ok ⟨200, none⟩)).result =
      Except.error (CallError.decodeFailure "invalid JSON document") ∧
    ¬ (Delete testClient "obj.remove" (some emptyValues)
      (Except.ok ⟨200, none⟩)).result = Except.ok () :=
  ⟨rfl, fun h => Except.noConfusion h⟩

/-- C4 (amended): every remove call issues the HTTP DELETE verb, but a
response with status < 400 is still JSON-decoded into the (nil) response
sink: the call succeeds exactly when the body is a valid JSON document, so a
status-200 response with an empty or non-JSON body returns a decode error
rather than success. -/
theorem delete_verb_and_body_decode (m : Millennium) (method : String)
    (params : Option Values) (rt : RoundTrip) (hm : ¬ method = "") :
    ((Delete m method params rt).built.map (fun b => b.httpMethod) = some "DELETE") ∧
    (∀ res, rt = Except.ok res → res.statusCode < 400 →
      ((Delete m method params rt).result = Except.ok () ↔ ¬ res.body = none)) := by
  unfold Delete
  rw [Request_valid_eq m
    { HTTPMethod := DELETE, Method := method, Params := params, Body := "",
      hasResponse := false }
    decodeIntoNilInterface rt hm
    (fun hc => absurd hc.2
      (by decide : ¬ ((DELETE : HTTPMethod) = "POST" ∨ (DELETE : HTTPMethod) = "GET")))
    (show isValidMethod (if (DELETE : HTTPMethod) = "" then "GET" else DELETE) = true
      by decide)]
  constructor
  · rfl
  · intro res hrt hst
    subst hrt
    have hnot : ¬ 400 ≤ res.statusCode := by omega
    simp only [sendRequest, getResponse, if_neg hnot]
    cases hb : res.body with
    | none => simp
    | some j => simp [decodeIntoNilInterface]

/-- Witness for C4's amended theorem: a concrete Delete with a valid JSON
body succeeds and its built request carries the DELETE verb. -/
theorem delete_verb_and_body_decode_witness :
    ((Delete testClient "obj.remove" (some emptyValues)
      (Except.ok ⟨200, some (Json.obj [("odata.metadata", Json.str "")])⟩)).built.map
        (fun b => b.httpMethod) = some "DELETE") ∧
    ((Delete testClient "obj.remove" (some emptyValues)
      (Except.ok ⟨200, some (Json.obj [("odata.metadata", Json.str "")])⟩)).result =
        Except.ok () ↔
      ¬ (⟨200, some (Json.obj [("odata.metadata", Json.str "")])⟩ : HttpResponse).body
        = none) :=
  ⟨(delete_verb_and_body_decode testClient "obj.remove" (some emptyValues)
      (Except.ok ⟨200, some (Json.obj [("odata.metadata", Json.str "")])⟩)
      (by decide)).1,
   (delete_verb_and_body_decode testClient "obj.remove" (some emptyValues)
      (Except.ok ⟨200, some (Json.obj [("odata.metadata", Json.str "")])⟩)
      (by decide)).2 _ rfl (by decide)⟩

/-- C5: for every request with a non-empty method name (that passes the
response-sink validation, without which no query string is constructed), the
constructed query string contains the pairs for format json and dateformat
iso; the two fixed parameters are appended in addition to — never
overwriting — any caller-supplied values of the same keys, and every
caller-supplied pair survives into the encoded query. -/
theorem request_fixed_query_params {σ : Type} (m : Millennium) (r : RequestMethod)
    (ds : Json → Option σ) (rt : RoundTrip) (hm : ¬ r.Method = "")
    (hs : ¬ (r.hasResponse = false ∧ (r.HTTPMethod = "POST" ∨ r.HTTPMethod = "GET"))) :
    (Request m r ds rt).queryPairs = some (valuesEncode (withDefaultParams r.Params)) ∧
    ("$format", "json") ∈ valuesEncode (withDefaultParams r.Params) ∧
    ("$dateformat", "iso") ∈ valuesEncode (withDefaultParams r.Params) ∧
    valuesGet (withDefaultParams r.Params) "$format" =
      some ((valuesGet (r.Params.getD emptyValues) "$format").getD [] ++ ["json"]) ∧
    valuesGet (withDefaultParams r.Params) "$dateformat" =
      some ((valuesGet (r.Params.getD emptyValues) "$dateformat").getD [] ++ ["iso"]) ∧
    (∀ k v, valuesHasPair (r.Params.getD emptyValues) k v →
      (k, v) ∈ valuesEncode (withDefaultParams r.Params)) := by
  refine ⟨Request_queryPairs_eq m r ds rt hm hs, ?_, ?_, ?_, ?_, ?_⟩
  · exact (mem_valuesEncode_iff _ _ _).mpr
      (valuesHasPair_valuesAdd_mono _ _ _ _ _ (valuesHasPair_valuesAdd_self _ _ _))
  · exact (mem_valuesEncode_iff _ _ _).mpr (valuesHasPair_valuesAdd_self _ _ _)
  · unfold withDefaultParams
    rw [valuesGet_valuesAdd_ne _ _ _ _ (by decide), valuesGet_valuesAdd_self]
  · unfold withDefaultParams
    rw [valuesGet_valuesAdd_self, valuesGet_valuesAdd_ne _ _ _ _ (by decide)]
  · intro k v h
    exact (mem_valuesEncode_iff _ _ _).mpr
      (valuesHasPair_valuesAdd_mono _ _ _ _ _ (valuesHasPair_valuesAdd_mono _ _ _ _ _ h))

/-- Witness for C5 at a concrete request whose caller already supplies a
format value: both fixed pairs are present and the caller's value
survives (duplicate keys in the query). -/
theorem request_fixed_query_params_witness :
    (Request testClient
      { HTTPMethod := "GET", Method := "m", Params := some [("$format", ["xml"])],
        Body := "", hasResponse := true }
      decodeResponseGet (Except.error "x")).queryPairs =
      some (valuesEncode (withDefaultParams (some [("$format", ["xml"])]))) ∧
    ("$format", "json") ∈ valuesEncode (withDefaultParams (some [("$format", ["xml"])])) ∧
    ("$format", "xml") ∈ valuesEncode (withDefaultParams (some [("$format", ["xml"])])) ∧
    valuesGet (withDefaultParams (some [("$format", ["xml"])])) "$format" =
      some ["xml", "json"] :=
  ⟨(request_fixed_query_params testClient
      { HTTPMethod := "GET", Method := "m", Params := some [("$format", ["xml"])],
        Body := "", hasResponse := true }
      decodeResponseGet (Except.error "x") (by decide) (by simp)).1,
   (request_fixed_query_params testClient
      { HTTPMethod := "GET", Method := "m", Params := some [("$format", ["xml"])],
        Body := "", hasResponse := true }
      decodeResponseGet (Except.error "x") (by decide) (by simp)).2.1,
   (request_fixed_query_params testClient
      { HTTPMethod := "GET", Method := "m", Params := some [("$format", ["xml"])],
        Body := "", hasResponse := true }
      decodeResponseGet (Except.error "x") (by decide) (by simp)).2.2.2.2.2
     "$format" "xml" ⟨("$format", ["xml"]), by simp, rfl, by simp⟩,
   (request_fixed_query_params testClient
      { HTTPMethod := "GET", Method := "m", Params := some [("$format", ["xml"])],
        Body := "", hasResponse := true }
      decodeResponseGet (Except.error "x") (by decide) (by simp)).2.2.2.1⟩

/-- Clients used by the C6 witness. -/
def ntlmClient : Millennium :=
  { testClient with credentials :=
      { Username := "user", Password := "pw", AuthType := NTLM, Session := "" } }

/-- A client whose stored auth mode is Session, used by the C6 witness. -/
def sessionClient : Millennium :=
  { testClient with credentials :=
      { Username := "user", Password := "pw", AuthType := Session, Session := "tok" } }

/-- C6: for every request that reaches dispatch, if the stored auth-mode is
NTLM or Basic then the outgoing request carries basic-auth credentials built
from the stored username and password; for Session mode none are attached.
The Basic branch of this behavior is modelled from the spec (see
attachesBasicAuth): the millennium.go revisions under src check only NTLM,
the revision defining Basic is missing and evidenced by the test file. -/
theorem request_basic_auth_per_mode {σ : Type} (m : Millennium) (r : RequestMethod)
    (ds : Json → Option σ) (rt : RoundTrip) (hm : ¬ r.Method = "")
    (hs : ¬ (r.hasResponse = false ∧ (r.HTTPMethod = "POST" ∨ r.HTTPMethod = "GET")))
    (hv : isValidMethod (if r.HTTPMethod = "" then "GET" else r.HTTPMethod) = true) :
    ((m.credentials.AuthType = NTLM ∨ m.credentials.AuthType = Basic) →
      (Request m r ds rt).built.map (fun b => b.basicAuth) =
        some (some (m.credentials.Username, m.credentials.Password))) ∧
    (m.credentials.AuthType = Session →
      (Request m r ds rt).built.map (fun b => b.basicAuth) = some none) := by
  rw [Request_valid_eq m r ds rt hm hs hv]
  constructor
  · intro hmode
    have hat : attachesBasicAuth m.credentials.AuthType = true := by
      rcases hmode with h | h <;> rw [h] <;> decide
    simp [hat]
  · intro hmode
    have hat : attachesBasicAuth m.credentials.AuthType = false := by
      rw [hmode]
      decide
    simp [hat]

/-- Witness for C6: an NTLM-mode client attaches its stored credentials, a
Session-mode client attaches none. -/
theorem request_basic_auth_per_mode_witness :
    (Request ntlmClient
      { HTTPMethod := "GET", Method := "m", Params := none, Body := "",
        hasResponse := true }
      decodeResponseGet (Except.error "x")).built.map (fun b => b.basicAuth) =
      some (some ("user", "pw")) ∧
    (Request sessionClient
      { HTTPMethod := "GET", Method := "m", Params := none, Body := "",
        hasResponse := true }
      decodeResponseGet (Except.error "x")).built.map (fun b => b.basicAuth) =
      some none :=
  ⟨(request_basic_auth_per_mode ntlmClient
      { HTTPMethod := "GET", Method := "m", Params := none, Body := "",
        hasResponse := true }
      decodeResponseGet (Except.error "x") (by decide) (by simp)
      (show isValidMethod (if ("GET" : HTTPMethod) = "" then "GET" else "GET") = true
        by decide)).1 (Or.inl rfl),
   (request_basic_auth_per_mode sessionClient
      { HTTPMethod := "GET", Method := "m", Params := none, Body := "",
        hasResponse := true }
      decodeResponseGet (Except.error "x") (by decide) (by simp)
      (show isValidMethod (if ("GET" : HTTPMethod) = "" then "GET" else "GET") = true
        by decide)).2 rfl⟩

/-- C8 counterexample: a negative construction timeout is accepted — NewClient
only rejects a timeout exactly equal to zero, so the claim that zero or
negative timeouts are detected and returned as errors is false on the code. -/
theorem c8_counterexample :
    NewClient "http://server" (-5) = Except.ok
      { ServerAddr := "http://server", Timeout := -5, headers := emptyHeader,
        credentials := { Username := "", Password := "", AuthType := "", Session := "" },
        ntlmNegotiator := false } := rfl

/-- C8 (amended): an empty base address or a timeout of exactly zero at
construction, and an empty method name or a missing response sink for
GET/POST at request time, are each detected and returned before any network
I/O (the request is never dispatched); a negative timeout, however, is not
rejected. -/
theorem config_errors_detected {σ : Type} (server : String) (t : Int)
    (m : Millennium) (r : RequestMethod) (ds : Json → Option σ) (rt : RoundTrip) :
    (server = "" → ∃ msg, NewClient server t = Except.error msg) ∧
    (t = 0 → ∃ msg, NewClient server t = Except.error msg) ∧
    (r.Method = "" →
      (∃ msg, (Request m r ds rt).result = Except.error (CallError.validation msg)) ∧
      (Request m r ds rt).dispatched = false) ∧
    (r.hasResponse = false → (r.HTTPMethod = "POST" ∨ r.HTTPMethod = "GET") →
      (∃ msg, (Request m r ds rt).result = Except.error (CallError.validation msg)) ∧
      (Request m r ds rt).dispatched = false) := by
  refine ⟨?_, ?_, ?_, ?_⟩
  · intro h
    subst h
    exact ⟨_, rfl⟩
  · intro h
    subst h
    unfold NewClient
    by_cases hsrv : server = ""
    · rw [if_pos hsrv]
      exact ⟨_, rfl⟩
    · rw [if_neg hsrv, if_pos rfl]
      exact ⟨_, rfl⟩
  · intro h
    unfold Request
    rw [if_pos h]
    exact ⟨⟨_, rfl⟩, rfl⟩
  · intro h1 h2
    unfold Request
    by_cases hmeth : r.Method = ""
    · rw [if_pos hmeth]
      exact ⟨⟨_, rfl⟩, rfl⟩
    · rw [if_neg hmeth, if_pos ⟨h1, h2⟩]
      exact ⟨⟨_, rfl⟩, rfl⟩

/-- Witness for C8's amended theorem at concrete inputs: each configuration
error is detected with no dispatch. -/
theorem config_errors_detected_witness :
    (∃ msg, NewClient "" 30 = Except.error msg) ∧
    (∃ msg, NewClient "http://server" 0 = Except.error msg) ∧
    ((∃ msg, (Request testClient
        { HTTPMethod := "GET", Method := "", Params := none, Body := "",
          hasResponse := true }
        decodeResponseGet (Except.error "x")).result =
        Except.error (CallError.validation msg)) ∧
      (Request testClient
        { HTTPMethod := "GET", Method := "", Params := none, Body := "",
          hasResponse := true }
        decodeResponseGet (Except.error "x")).dispatched = false) ∧
    ((∃ msg, (Request testClient
        { HTTPMethod := "GET", Method := "m", Params := none, Body := "",
          hasResponse := false }
        decodeResponseGet (Except.error "x")).result =
        Except.error (CallError.validation msg)) ∧
      (Request testClient
        { HTTPMethod := "GET", Method := "m", Params := none, Body := "",
          hasResponse := false }
        decodeResponseGet (Except.error "x")).dispatched = false) :=
  ⟨(config_errors_detected "" 30 testClient
      { HTTPMethod := "GET", Method := "m", Params := none, Body := "",
        hasResponse := true }
      decodeResponseGet (Except.error "x")).1 rfl,
   (config_errors_detected "http://server" 0 testClient
      { HTTPMethod := "GET", Method := "m", Params := none, Body := "",
        hasResponse := true }
      decodeResponseGet (Except.error "x")).2.1 rfl,
   (config_errors_detected "http://server" 30 testClient
      { HTTPMethod := "GET", Method := "", Params := none, Body := "",
        hasResponse := true }
      decodeResponseGet (Except.error "x")).2.2.1 rfl,
   (config_errors_detected "http://server" 30 testClient
      { HTTPMethod := "GET", Method := "m", Params := none, Body := "",
        hasResponse := false }
      decodeResponseGet (Except.error "x")).2.2.2 rfl (Or.inr rfl)⟩

/-- C10 counterexample: a call with a non-nil caller params map but an empty
method name returns before the two fixed parameters are appended, so the
caller's map is left untouched and contains neither entry — the claim
quantifying over every call with a non-nil params map is false on the
code. -/
theorem c10_counterexample :
    (Request testClient
      { HTTPMethod := "GET", Method := "", Params := some emptyValues, Body := "",
        hasResponse := true }
      decodeResponseGet (Except.error "x")).callerParams = some emptyValues ∧
    valuesGet emptyValues "$format" = none ∧
    valuesGet emptyValues "$dateformat" = none :=
  ⟨rfl, rfl, rfl⟩

/-- C10 (amended): for every call that passes request validation (non-empty
method name and, for GET/POST, a present response sink) made with a non-nil
caller-supplied params map, Request mutates that shared map in place: after
the call returns the caller's map is the map with the two fixed entries
appended, so it additionally contains format json and dateformat iso. -/
theorem request_mutates_caller_params {σ : Type} (m : Millennium)
    (r : RequestMethod) (ds : Json → Option σ) (rt : RoundTrip) (p : Values)
    (hp : r.Params = some p) (hm : ¬ r.Method = "")
    (hs : ¬ (r.hasResponse = false ∧ (r.HTTPMethod = "POST" ∨ r.HTTPMethod = "GET"))) :
    (Request m r ds rt).callerParams = some (withDefaultParams (some p)) ∧
    valuesGet (withDefaultParams (some p)) "$format" =
      some ((valuesGet p "$format").getD [] ++ ["json"]) ∧
    valuesGet (withDefaultParams (some p)) "$dateformat" =
      some ((valuesGet p "$dateformat").getD [] ++ ["iso"]) := by
  refine ⟨?_, ?_, ?_⟩
  · rw [Request_callerParams_eq m r ds rt hm hs, hp]
    rfl
  · unfold withDefaultParams
    rw [valuesGet_valuesAdd_ne _ _ _ _ (by decide), valuesGet_valuesAdd_self]
    rfl
  · unfold withDefaultParams
    rw [valuesGet_valuesAdd_self, valuesGet_valuesAdd_ne _ _ _ _ (by decide)]
    rfl

/-- Witness for C10's amended theorem at a concrete caller map. -/
theorem request_mutates_caller_params_witness :
    (Request testClient
      { HTTPMethod := "GET", Method := "m", Params := some [("a", ["b"])],
        Body := "", hasResponse := true }
      decodeResponseGet (Except.error "x")).callerParams =
      some (withDefaultParams (some [("a", ["b"])])) ∧
    valuesGet (withDefaultParams (some [("a", ["b"])])) "$format" =
      some ((valuesGet [("a", ["b"])] "$format").getD [] ++ ["json"]) ∧
    valuesGet (withDefaultParams (some [("a", ["b"])])) "$dateformat" =
      some ((valuesGet [("a", ["b"])] "$dateformat").getD [] ++ ["iso"]) :=
  request_mutates_caller_params testClient
    { HTTPMethod := "GET", Method := "m", Params := some [("a", ["b"])],
      Body := "", hasResponse := true }
    decodeResponseGet (Except.error "x") [("a", ["b"])] rfl (by decide) (by simp)
